import Mathlib

/-!
Shallow embedding of `src/stock_monitor.py` (Stock Crash Monitor).

Pure fragments of the script are translated into executable Lean
definitions; the script's side effects (console prints, log-file appends,
the Pushover HTTP call, the per-ticker alert files) are modelled as
explicit values: the alert file for a ticker is an `Option String`
(`none` = the file does not exist), the dispatcher `log_alert` returns the
ordered list of side effects it performs, and the outcome of the external
notifier is a parameter.  Prices are embedded as rationals (the Python
floats), timestamps as a `PyDateTime` record mirroring
`datetime.datetime` fields to second precision (the script formats and
parses timestamps with second precision only).
-/

/-! ### Characters and digits -/

def digitVal (c : Char) : Nat := c.toNat - 48

def digitsVal (cs : List Char) : Nat := cs.foldl (fun a c => a * 10 + digitVal c) 0

def digitChar : Nat → Char
  | 0 => '0' | 1 => '1' | 2 => '2' | 3 => '3' | 4 => '4'
  | 5 => '5' | 6 => '6' | 7 => '7' | 8 => '8' | _ => '9'

/-- Model of Python `str.strip()`: drop whitespace from both ends. -/
def pyStrip (s : String) : String :=
  String.mk (((s.data.dropWhile Char.isWhitespace).reverse.dropWhile Char.isWhitespace).reverse)

/-- Model of Python `str.lower()` (the watchlist fields are ASCII). -/
def pyLower (s : String) : String := String.mk (s.data.map Char.toLower)

/-! ### Proleptic Gregorian calendar, as in CPython `datetime`
(`_is_leap`, `_days_in_month`, `_days_before_year`, `_days_before_month`,
`_ymd2ord`, `_isoweek1monday`, `date.isocalendar`). -/

def isLeap (y : Nat) : Bool := y % 4 == 0 && (y % 100 != 0 || y % 400 == 0)

def daysInMonth (y m : Nat) : Nat :=
  if m == 2 then (if isLeap y then 29 else 28)
  else if m == 4 || m == 6 || m == 9 || m == 11 then 30
  else 31

def daysBeforeYear (y : Nat) : Nat :=
  let p := y - 1
  p * 365 + p / 4 - p / 100 + p / 400

def daysBeforeMonth (y m : Nat) : Nat :=
  (List.range (m - 1)).foldl (fun acc i => acc + daysInMonth y (i + 1)) 0

def ymd2ord (y m d : Nat) : Nat := daysBeforeYear y + daysBeforeMonth y m + d

/-- Model of `datetime.datetime` to second precision (the script never formats or
parses sub-second fields). -/
structure PyDateTime where
  year : Nat
  month : Nat
  day : Nat
  hour : Nat
  minute : Nat
  second : Nat
deriving DecidableEq

def toordinal (dt : PyDateTime) : Int := (ymd2ord dt.year dt.month dt.day : Nat)

/-- CPython `_isoweek1monday(year)`: ordinal of the Monday starting ISO week 1. -/
def isoweek1monday (y : Nat) : Int :=
  let firstday : Int := (ymd2ord y 1 1 : Nat)
  let firstweekday : Int := Int.emod (firstday + 6) 7
  let week1monday : Int := firstday - firstweekday
  if firstweekday > 3 then week1monday + 7 else week1monday

/-- CPython `date.isocalendar`, restricted to the (ISO year, ISO week)
pair; the script never reads the weekday component. -/
def isocalendar (dt : PyDateTime) : Int × Int :=
  let year : Int := dt.year
  let today := toordinal dt
  let week1monday := isoweek1monday dt.year
  let week := Int.ediv (today - week1monday) 7
  if week < 0 then
    let w1p := isoweek1monday (dt.year - 1)
    (year - 1, Int.ediv (today - w1p) 7 + 1)
  else if week >= 52 && today >= isoweek1monday (dt.year + 1) then
    (year + 1, 1)
  else (year, week + 1)

/-- Python `date` comparison (`now.date() > last.date()` in the script):
lexicographic on (year, month, day).  `pydate_lt a b` means the calendar
date of `a` is strictly earlier than that of `b`. -/
def pydate_lt (a b : PyDateTime) : Bool :=
  a.year < b.year ||
    (a.year == b.year &&
      (a.month < b.month || (a.month == b.month && a.day < b.day)))

/-! ### `datetime.strptime(s, "%Y-%m-%d %H:%M:%S")`

CPython compiles the format into a regex: `%Y` is exactly four digits,
`%m`/`%d`/`%H`/`%M`/`%S` are one or two digits restricted to the field's
range, a space matches one or more whitespace characters, other characters
are literal, and the whole input must be consumed.  The `datetime`
constructor then validates the day against the month length.  The model
below greedily reads bounded digit runs and range-checks them, which
yields the same success/failure outcome and the same parsed value on every
input of this alphabet. -/

def grabDigits : Nat → List Char → List Char × List Char
  | _, [] => ([], [])
  | 0, cs => ([], cs)
  | n + 1, c :: cs =>
    if c.isDigit then
      let p := grabDigits n cs
      (c :: p.1, p.2)
    else ([], c :: cs)

def parseNum2 (lo hi : Nat) (cs : List Char) : Option (Nat × List Char) :=
  let p := grabDigits 2 cs
  if p.1.isEmpty then none
  else
    let v := digitsVal p.1
    if lo ≤ v && v ≤ hi then some (v, p.2) else none

def parseYear4 (cs : List Char) : Option (Nat × List Char) :=
  let p := grabDigits 4 cs
  if p.1.length == 4 then some (digitsVal p.1, p.2) else none

def expectChar (c : Char) : List Char → Option (List Char)
  | [] => none
  | x :: xs => if x == c then some xs else none

def skipSpaces1 : List Char → Option (List Char)
  | [] => none
  | x :: xs => if x.isWhitespace then some (xs.dropWhile Char.isWhitespace) else none

def strptime_ymd_hms (cs : List Char) : Option PyDateTime :=
  (parseYear4 cs).bind fun py =>
  (expectChar '-' py.2).bind fun r2 =>
  (parseNum2 1 12 r2).bind fun pm =>
  (expectChar '-' pm.2).bind fun r4 =>
  (parseNum2 1 31 r4).bind fun pd =>
  (skipSpaces1 pd.2).bind fun r6 =>
  (parseNum2 0 23 r6).bind fun ph =>
  (expectChar ':' ph.2).bind fun r8 =>
  (parseNum2 0 59 r8).bind fun pmin =>
  (expectChar ':' pmin.2).bind fun r10 =>
  (parseNum2 0 61 r10).bind fun ps =>
  if ps.2.isEmpty then
    if 1 ≤ py.1 && pd.1 ≤ daysInMonth py.1 pm.1 && ps.1 ≤ 59 then
      some ⟨py.1, pm.1, pd.1, ph.1, pmin.1, ps.1⟩
    else none
  else none

/-! ### `strftime("%Y-%m-%d %H:%M:%S")` for in-range timestamps -/

def pad2 (n : Nat) : String := String.mk [digitChar (n / 10 % 10), digitChar (n % 10)]

def pad4 (n : Nat) : String :=
  String.mk [digitChar (n / 1000 % 10), digitChar (n / 100 % 10),
             digitChar (n / 10 % 10), digitChar (n % 10)]

def strftime_ymd_hms (dt : PyDateTime) : String :=
  pad4 dt.year ++ "-" ++ pad2 dt.month ++ "-" ++ pad2 dt.day ++ " " ++
    pad2 dt.hour ++ ":" ++ pad2 dt.minute ++ ":" ++ pad2 dt.second

/-! ### String helpers for the gate (`readline`, `in`, `split`) -/

/-- Model of `f.readline()` on the file content: everything up to and including the
first newline (the whole content when there is none). -/
def readlineAux : List Char → List Char
  | [] => []
  | c :: cs => if c == '\n' then ['\n'] else c :: readlineAux cs

/-- Python `needle in haystack`: `leadsWith n h` is true when `n` is an
initial segment of `h`. -/
def leadsWith : List Char → List Char → Bool
  | [], _ => true
  | _ :: _, [] => false
  | a :: as, b :: bs => a == b && leadsWith as bs

def hasSub : List Char → List Char → Bool
  | [], need => need.isEmpty
  | c :: rest, need => leadsWith need (c :: rest) || hasSub rest need

def afterFirstChar (c : Char) : List Char → Option (List Char)
  | [] => none
  | x :: xs => if x == c then some xs else afterFirstChar c xs

/-- Model of `first_line.split('(')[1].split(')')[0]`: `none` models the
`IndexError` raised when the line holds no `(` at all; otherwise the
segment after the first `(` up to the next `(` or `)` or end of line. -/
def parenField (l : List Char) : Option (List Char) :=
  (afterFirstChar '(' l).map fun rest =>
    (rest.takeWhile (fun c => c != '(')).takeWhile (fun c => c != ')')

/-- The whole timestamp-recovery pipeline of `should_send_alert`:
`none` covers both the `IndexError` from the splits and the `ValueError`
from `strptime` (the script catches both). -/
def parseRecordTimestamp (content : String) : Option PyDateTime :=
  match parenField (readlineAux content.data) with
  | none => none
  | some ts => strptime_ymd_hms ts

/-! ### `should_send_alert(ticker, frequency)`

The per-ticker alert file is passed in as `record : Option String`
(`none` = `alerts/<ticker>.txt` does not exist) and the current wall
clock as `now`; the script reads both from the environment. -/

def should_send_alert (record : Option String) (frequency : String)
    (now : PyDateTime) : Bool :=
  match record with
  | none => true
  | some content =>
    if frequency == "once" then false
    else
      let first_line := readlineAux content.data
      if hasSub first_line ("Alert sent".data) then
        match parenField first_line with
        | none => true
        | some ts =>
          match strptime_ymd_hms ts with
          | none => true
          | some last_alert_date =>
            if frequency == "daily" && pydate_lt last_alert_date now then true
            else if frequency == "weekly" &&
                ((isocalendar now).1 != (isocalendar last_alert_date).1 ||
                 (isocalendar now).2 != (isocalendar last_alert_date).2) then true
            else if frequency == "monthly" &&
                (now.year != last_alert_date.year ||
                 now.month != last_alert_date.month) then true
            else false
      else false

/-- Content written by `create_alert_file(ticker, message)` into
`alerts/<ticker>.txt`. -/
def create_alert_file_content (now : PyDateTime) (message : String) : String :=
  "Alert sent (" ++ strftime_ymd_hms now ++ ")\n" ++ message ++ "\n"

/-! ### Dispatcher: `send_pushover_notification` and `log_alert`

Side effects are reified as an ordered list of `Effect` values, in the
order the script performs them.  The external conditions (whether the
Pushover credentials are configured, and whether the HTTP POST succeeds)
are parameters. -/

inductive Effect where
  | consolePrint (s : String)
  | logFileAppend (s : String)
  | notifyAttempt (message : String) (ok : Bool)
  | writeRecord (ticker : String) (content : String)
deriving DecidableEq

def send_pushover_notification (credsSet sendSucceeds : Bool)
    (message : String) : Bool × List Effect :=
  if !credsSet then
    (false, [Effect.consolePrint "Pushover credentials are not set. Skipping notification."])
  else if sendSucceeds then
    (true, [Effect.notifyAttempt message true,
            Effect.consolePrint "Pushover notification sent successfully."])
  else
    (false, [Effect.notifyAttempt message false,
             Effect.consolePrint "Could not send Pushover notification."])

def log_entry_message (now : PyDateTime) (message : String) : String :=
  "[" ++ strftime_ymd_hms now ++ "] " ++ message

/-- Model of `log_alert(message, ticker, frequency)`.  `record` is the current
content of `alerts/<ticker>.txt` (`none` = absent); `now` stands for the
`datetime.now()` calls of this invocation (the script reads the clock
several times within milliseconds; one value models all of them). -/
def log_alert (message ticker frequency : String) (record : Option String)
    (now : PyDateTime) (credsSet sendSucceeds : Bool) : List Effect :=
  let should_send := should_send_alert record frequency now
  let entry := log_entry_message now message
  if should_send = false then
    [Effect.consolePrint ("Alert for " ++ ticker ++ " already sent according to frequency " ++ frequency ++ ". Skipping."),
     Effect.consolePrint ("Details: " ++ message),
     Effect.logFileAppend entry]
  else
    let push := send_pushover_notification credsSet sendSucceeds message
    [Effect.consolePrint entry] ++ push.2 ++ [Effect.logFileAppend entry] ++
      (if push.1 then [Effect.writeRecord ticker (create_alert_file_content now message)] else [])

/-- Ordering property stated by the claim, over the reified effect
trace: every append to the log sink precedes every external
notification attempt. -/
def log_sink_before_notify : List Effect → Bool
  | [] => true
  | Effect.notifyAttempt _ _ :: rest =>
      rest.all (fun e => match e with
        | Effect.logFileAppend _ => false
        | _ => true) && log_sink_before_notify rest
  | _ :: rest => log_sink_before_notify rest

/-! ### `parse_watchlist()` -/

/-- Default threshold 0.5, as the already-normalized rational 1/2 (the
explicit constructor keeps the value kernel-computable). -/
def DEFAULT_THRESHOLD : ℚ := ⟨1, 2, by decide, by decide⟩

def DEFAULT_ALERT_FREQUENCY : String := "daily"

/-- One value of the per-ticker configuration dictionary. -/
structure WatchConfig where
  threshold : ℚ
  direction : String
  price_below : Option ℚ
  price_above : Option ℚ
  alert_frequency : String
deriving DecidableEq

def takeWhileDigits (cs : List Char) : List Char × List Char :=
  (cs.takeWhile Char.isDigit, cs.dropWhile Char.isDigit)

/-- Model of Python `float(s)` on the decimal fragment
`[+-]? digits [. digits]?` (at least one digit); other spellings Python
accepts (exponents, `inf`, `nan`, underscores) are out of the modelled
alphabet and are treated as unparsable. -/
def pyFloat (s : String) : Option ℚ :=
  let p0 := s.data
  let sp : ℚ × List Char :=
    match p0 with
    | '-' :: t => (-1, t)
    | '+' :: t => (1, t)
    | _ => (1, p0)
  let ip := takeWhileDigits sp.2
  match ip.2 with
  | [] => if ip.1.isEmpty then none else some (sp.1 * (digitsVal ip.1 : ℚ))
  | '.' :: r2 =>
    let fp := takeWhileDigits r2
    if fp.2.isEmpty && !(ip.1.isEmpty && fp.1.isEmpty) then
      some (sp.1 * ((digitsVal ip.1 : ℚ) + (digitsVal fp.1 : ℚ) / (10 ^ fp.1.length)))
    else none
  | _ => none

/-- Validation `if direction not in ['gain', 'drop', 'both']` of the row
loop. -/
def normalizeDirection (raw : String) : String :=
  if raw == "gain" || raw == "drop" || raw == "both" then raw else "both"

/-- Validation `if alert_frequency not in ['once', 'daily', 'weekly',
'monthly']` of the row loop. -/
def normalizeFrequency (raw : String) : String :=
  if raw == "once" || raw == "daily" || raw == "weekly" || raw == "monthly"
  then raw else DEFAULT_ALERT_FREQUENCY

/-- Guarded `float` conversion of the threshold column: missing or empty
column and `ValueError` both fall back to `DEFAULT_THRESHOLD`. -/
def rowThreshold (row : List String) : ℚ :=
  if row.length > 1 && pyStrip (row.getD 1 "") != "" then
    match pyFloat (pyStrip (row.getD 1 "")) with
    | some v => v
    | none => DEFAULT_THRESHOLD
  else DEFAULT_THRESHOLD

/-- Guarded `float` conversion of the `price_below`/`price_above`
columns (index 3 and 4): missing, empty, and `ValueError` all yield
`None`. -/
def rowPrice (row : List String) (i : Nat) : Option ℚ :=
  if row.length > i && pyStrip (row.getD i "") != "" then pyFloat (pyStrip (row.getD i ""))
  else none

/-- Configuration dictionary value built by the row loop for a
non-skipped row. -/
def rowConfig (row : List String) : WatchConfig :=
  { threshold := rowThreshold row
    direction := normalizeDirection
      (if row.length > 2 && pyStrip (row.getD 2 "") != "" then pyLower (pyStrip (row.getD 2 ""))
       else "both")
    price_below := rowPrice row 3
    price_above := rowPrice row 4
    alert_frequency := normalizeFrequency
      (if row.length > 5 && pyStrip (row.getD 5 "") != "" then pyLower (pyStrip (row.getD 5 ""))
       else DEFAULT_ALERT_FREQUENCY) }

/-- The body of the row loop of `parse_watchlist` for a single CSV row:
`none` when the row is skipped (blank row, comment, or empty ticker),
otherwise the ticker together with its configuration. -/
def parseRowEntry (row : List String) : Option (String × WatchConfig) :=
  if row.isEmpty || leadsWith ("#".data) (pyStrip (row.headD "")).data then none
  else if pyStrip (row.headD "") == "" then none
  else some (pyStrip (row.headD ""), rowConfig row)

/-- Header scan of `parse_watchlist`: index of the first row whose first
field strips to `TICKER`. -/
def isHeaderRow (row : List String) : Bool :=
  !row.isEmpty && pyStrip (row.headD "") == "TICKER"

def findHeaderIdx : List (List String) → Option Nat
  | [] => none
  | r :: rs =>
    if isHeaderRow r then some 0
    else (findHeaderIdx rs).map (· + 1)

def rowsToProcess (all_rows : List (List String)) : List (List String)  :=
  match findHeaderIdx all_rows with
  | some i => all_rows.drop (i + 1)
  | none => all_rows

/-- Python dict assignment `watchlist[ticker] = config`: overwrite in
place when the key exists, append otherwise (dicts preserve insertion
order). -/
def upsert (wl : List (String × WatchConfig)) (t : String) (cfg : WatchConfig) :
    List (String × WatchConfig) :=
  if wl.any (fun e => e.1 == t) then
    wl.map (fun e => if e.1 == t then (t, cfg) else e)
  else wl ++ [(t, cfg)]

def processRows (rows : List (List String)) (wl : List (String × WatchConfig)) :
    List (String × WatchConfig) :=
  rows.foldl (fun acc row =>
    match parseRowEntry row with
    | none => acc
    | some tc => upsert acc tc.1 tc.2) wl

/-- Model of `parse_watchlist()`.  The raw CSV rows of `watchlist.txt` are passed
in as `source`; `none` models the `FileNotFoundError` path, which returns
the empty mapping. -/
def parse_watchlist (source : Option (List (List String))) :
    List (String × WatchConfig) :=
  match source with
  | none => []
  | some all_rows => processRows (rowsToProcess all_rows) []

/-! ### `get_market_session()` -/

/-- Model of `datetime.time` comparison, to second precision (the boundary times
of the script are whole minutes). -/
def pytime_le (a b : Nat × Nat × Nat) : Bool :=
  a.1 < b.1 || (a.1 == b.1 &&
    (a.2.1 < b.2.1 || (a.2.1 == b.2.1 && a.2.2 ≤ b.2.2)))

def pytime_lt (a b : Nat × Nat × Nat) : Bool :=
  a.1 < b.1 || (a.1 == b.1 &&
    (a.2.1 < b.2.1 || (a.2.1 == b.2.1 && a.2.2 < b.2.2)))

/-- Model of `get_market_session()`, with the current New York wall-clock time of
day passed in as `(hour, minute, second)`. -/
def get_market_session (now : Nat × Nat × Nat) : String :=
  let pre_market_start : Nat × Nat × Nat := (4, 0, 0)
  let market_start : Nat × Nat × Nat := (9, 30, 0)
  let market_end : Nat × Nat × Nat := (16, 0, 0)
  let post_market_end : Nat × Nat × Nat := (20, 0, 0)
  if pytime_le pre_market_start now && pytime_lt now market_start then "pre-market"
  else if pytime_le market_start now && pytime_lt now market_end then "regular"
  else if pytime_le market_end now && pytime_lt now post_market_end then "post-market"
  else "closed"

/-! ### `check_stock_price_change()`: per-ticker evaluation loop -/

/-- The percent-change alert decision (the `percentage_alert` flag). -/
def percentage_alert (direction : String) (percent_change threshold : ℚ) : Bool :=
  if direction == "both" && |percent_change| > threshold then true
  else if direction == "gain" && percent_change > threshold then true
  else if direction == "drop" && percent_change < -threshold then true
  else false

/-- What the loop body does for one ticker after the skip guards. -/
inductive TickerResult where
  | skipped (reason : String)
  | evaluated (percent_change : ℚ) (percentFires belowFires aboveFires : Bool)
deriving DecidableEq

/-- One iteration of the ticker loop.  `current` is
`get_current_price(...)` (`none` = unavailable); `previous` is the
previous close (`none` = empty/short history or a download exception,
both of which `continue`).  The division computing `percent_change` is
not guarded in the script: `previous = 0` raises `ZeroDivisionError`,
modelled as `Except.error`. -/
def processTicker (cfg : WatchConfig) (current previous : Option ℚ) :
    Except String TickerResult :=
  match current with
  | none => Except.ok (TickerResult.skipped "no current price")
  | some current_price =>
    match previous with
    | none => Except.ok (TickerResult.skipped "no historical data")
    | some previous_close =>
      if previous_close = 0 then Except.error "ZeroDivisionError"
      else
        let percent_change := ((current_price - previous_close) / previous_close) * 100
        Except.ok (TickerResult.evaluated percent_change
          (percentage_alert cfg.direction percent_change cfg.threshold)
          (match cfg.price_below with
           | some pb => decide (current_price < pb)
           | none => false)
          (match cfg.price_above with
           | some pa => decide (current_price > pa)
           | none => false))

/-- The ticker loop.  An uncaught exception from one iteration aborts
the whole loop (no later ticker is processed), exactly as an unhandled
Python exception propagates out of the `for`. -/
def checkLoop : List (String × WatchConfig × Option ℚ × Option ℚ) →
    Except String (List (String × TickerResult))
  | [] => Except.ok []
  | (t, cfg, c, p) :: rest =>
    match processTicker cfg c p with
    | Except.error e => Except.error e
    | Except.ok r =>
      match checkLoop rest with
      | Except.error e => Except.error e
      | Except.ok rs => Except.ok ((t, r) :: rs)

/-- Model of `check_stock_price_change`: after the empty-watchlist guard the
session is classified; a `closed` session returns before any ticker is
examined (`none` = no evaluation attempted this cycle). -/
def check_stock_price_change
    (inputs : List (String × WatchConfig × Option ℚ × Option ℚ))
    (session : String) :
    Option (Except String (List (String × TickerResult))) :=
  if inputs.isEmpty then none
  else if session == "closed" then none
  else some (checkLoop inputs)

/-! ## Claims -/

/-- C5: when no `AlertRecord` (alert file) exists, the gate returns true
for every `alert_frequency` value, so the first alert is never
suppressed; and under `frequency = once`, whenever a record exists the
gate returns false regardless of the record content and of elapsed time,
so at most one lifetime alert is permitted per ticker. -/
theorem c5_first_alert_and_once_gate (frequency content : String) (now : PyDateTime) :
    should_send_alert none frequency now = true
    ∧ should_send_alert (some content) "once" now = false := by
  constructor
  · rfl
  · simp [should_send_alert]

/-- C1 (counterexample): a corrupted persisted record whose first line
does not contain the marker text makes the gate return false under
frequency `daily`, so the gate does not fail open on every corrupted
record. -/
theorem c1_corrupted_record_counterexample :
    should_send_alert (some "corrupted record data") "daily"
      ⟨2025, 1, 15, 12, 0, 0⟩ = false := by decide

/-- C1 (amended): for a frequency other than `once`, a corrupted record
whose first line still contains the text `Alert sent` but whose
timestamp cannot be recovered (missing parenthesis or unparsable
timestamp) makes the gate return true (fail-open); a corrupted record
whose first line does not contain `Alert sent` makes the gate return
false (the alert is suppressed). -/
theorem c1_corrupted_record_amended (content frequency : String) (now : PyDateTime)
    (hfreq : frequency ≠ "once") :
    (hasSub (readlineAux content.data) ("Alert sent".data) = true →
      parseRecordTimestamp content = none →
      should_send_alert (some content) frequency now = true)
    ∧ (hasSub (readlineAux content.data) ("Alert sent".data) = false →
      should_send_alert (some content) frequency now = false) := by
  have hne : (frequency == "once") = false := by
    exact beq_eq_false_iff_ne.mpr hfreq
  constructor
  · intro h1 h2
    unfold parseRecordTimestamp at h2
    cases hp : parenField (readlineAux content.data) with
    | none => simp [should_send_alert, hne, h1, hp]
    | some ts =>
      rw [hp] at h2
      simp only [] at h2
      simp [should_send_alert, hne, h1, hp, h2]
  · intro h1
    simp [should_send_alert, hne, h1]

/-- C1 (witness for the amended claim). -/
theorem c1_corrupted_record_amended_witness :
    should_send_alert (some "Alert sent (bogus)\nmsg\n") "daily"
      ⟨2025, 1, 15, 12, 0, 0⟩ = true
    ∧ should_send_alert (some "corrupted record data") "weekly"
      ⟨2025, 1, 15, 12, 0, 0⟩ = false := by
  constructor
  · exact (c1_corrupted_record_amended "Alert sent (bogus)\nmsg\n" "daily"
      ⟨2025, 1, 15, 12, 0, 0⟩ (by decide)).1 (by decide) (by decide)
  · exact (c1_corrupted_record_amended "corrupted record data" "weekly"
      ⟨2025, 1, 15, 12, 0, 0⟩ (by decide)).2 (by decide)

/-- C2: with a previous close of zero the percent-change division raises
an uncaught `ZeroDivisionError` that aborts the whole ticker loop, so
the following ticker is never evaluated — even though that ticker on its
own evaluates fine (and for a positive previous close the computed
percent change is exactly `(current - previous) / previous * 100`, here
`(105 - 100) / 100 * 100 = 5`). -/
theorem c2_zero_previous_close_aborts_loop :
    checkLoop [("AAA", ⟨1, "both", none, none, "daily"⟩, some 101, some 0),
               ("BBB", ⟨1, "both", none, none, "daily"⟩, some 105, some 100)]
      = Except.error "ZeroDivisionError"
    ∧ processTicker ⟨1, "both", none, none, "daily"⟩ (some 105) (some 100)
      = Except.ok (TickerResult.evaluated 5 true false false) := by
  constructor
  · rfl
  · norm_num [processTicker, percentage_alert]

/-- Helper: the if-cascade of the percent-change rule as one Boolean
formula (the three direction strings are pairwise distinct, so the
cascade is a disjunction). -/
theorem percentage_alert_eq (d : String) (pc t : ℚ) :
    percentage_alert d pc t =
      ((d == "both") && decide (t < |pc|)
        || (d == "gain") && decide (t < pc)
        || (d == "drop") && decide (pc < -t)) := by
  unfold percentage_alert
  by_cases h1 : d = "both"
  · subst h1; simp
  · by_cases h2 : d = "gain"
    · subst h2; simp
    · by_cases h3 : d = "drop"
      · subst h3; simp
      · simp [beq_eq_false_iff_ne.mpr h1, beq_eq_false_iff_ne.mpr h2,
              beq_eq_false_iff_ne.mpr h3]

/-- C3: for a positive threshold the percent-change rule fires exactly
when `direction = both` and `|percent_change| > threshold`, or
`direction = gain` and `percent_change > threshold`, or
`direction = drop` and `percent_change < -threshold`; the comparisons
are strict, so a percent change whose magnitude equals the threshold
never fires; `gain` never fires on a negative change and `drop` never
fires on a positive one. -/
theorem c3_percent_rule_characterization (direction : String) (percent_change threshold : ℚ)
    (hpos : 0 < threshold) :
    (percentage_alert direction percent_change threshold = true ↔
      (direction = "both" ∧ threshold < |percent_change|)
      ∨ (direction = "gain" ∧ threshold < percent_change)
      ∨ (direction = "drop" ∧ percent_change < -threshold))
    ∧ (|percent_change| = threshold →
        percentage_alert direction percent_change threshold = false)
    ∧ (percent_change < 0 →
        percentage_alert "gain" percent_change threshold = false)
    ∧ (0 < percent_change →
        percentage_alert "drop" percent_change threshold = false) := by
  refine ⟨?_, ?_, ?_, ?_⟩
  · rw [percentage_alert_eq]
    simp [Bool.or_eq_true, Bool.and_eq_true, beq_iff_eq, decide_eq_true_iff, or_assoc]
  · intro h
    rw [percentage_alert_eq]
    have h1 : ¬ threshold < |percent_change| := by rw [h]; exact lt_irrefl threshold
    have h2 : ¬ threshold < percent_change := by
      have := le_abs_self percent_change
      intro hc; rw [h] at this; exact absurd (lt_of_lt_of_le hc this) (lt_irrefl threshold)
    have h3 : ¬ percent_change < -threshold := by
      have := neg_abs_le percent_change
      intro hc; rw [h] at this; exact absurd (lt_of_le_of_lt this hc) (by simp)
    simp [h1, h2, h3]
  · intro hneg
    rw [percentage_alert_eq]
    have h2 : ¬ threshold < percent_change := by intro hc; linarith
    simp [h2]
  · intro hposc
    rw [percentage_alert_eq]
    have h3 : ¬ percent_change < -threshold := by intro hc; linarith
    simp [h3]

/-- C3 (witness). -/
theorem c3_percent_rule_witness :
    percentage_alert "both" (3 : ℚ) 2 = true
    ∧ percentage_alert "both" (2 : ℚ) 2 = false
    ∧ percentage_alert "gain" (-5 : ℚ) 2 = false
    ∧ percentage_alert "drop" (5 : ℚ) 2 = false := by
  refine ⟨?_, ?_, ?_, ?_⟩
  · exact (c3_percent_rule_characterization "both" 3 2 (by norm_num)).1.mpr
      (Or.inl ⟨rfl, by norm_num⟩)
  · exact (c3_percent_rule_characterization "both" 2 2 (by norm_num)).2.1 (by norm_num)
  · exact (c3_percent_rule_characterization "gain" (-5) 2 (by norm_num)).2.2.1 (by norm_num)
  · exact (c3_percent_rule_characterization "drop" 5 2 (by norm_num)).2.2.2 (by norm_num)

/-- C4: for a well-formed existing record (its first line carries the
`Alert sent` marker and a recoverable timestamp `last`), the gate is
calendar-based: `daily` returns true iff the current calendar date is
strictly later than the record date; `weekly` returns true iff the
(ISO week-year, ISO week) pair differs; `monthly` returns true iff the
(year, month) pair differs. -/
theorem c4_calendar_gate (content : String) (last now : PyDateTime)
    (hmark : hasSub (readlineAux content.data) ("Alert sent".data) = true)
    (hts : parseRecordTimestamp content = some last) :
    (should_send_alert (some content) "daily" now = true ↔ pydate_lt last now = true)
    ∧ (should_send_alert (some content) "weekly" now = true ↔
        isocalendar now ≠ isocalendar last)
    ∧ (should_send_alert (some content) "monthly" now = true ↔
        (now.year, now.month) ≠ (last.year, last.month)) := by
  unfold parseRecordTimestamp at hts
  cases hp : parenField (readlineAux content.data) with
  | none => rw [hp] at hts; simp at hts
  | some ts =>
    rw [hp] at hts
    simp only [] at hts
    refine ⟨?_, ?_, ?_⟩
    · simp [should_send_alert, hmark, hp, hts]
    · simp [should_send_alert, hmark, hp, hts, Prod.ext_iff, not_and_or]
      by_cases hh : (isocalendar now).1 = (isocalendar last).1 <;> simp [hh]
    · simp [should_send_alert, hmark, hp, hts, Prod.ext_iff, not_and_or]
      by_cases hh : now.year = last.year <;> simp [hh]

/-- C4 (witness): the daily example of the specification — a record
stamped 2025-01-10 23:59:00 gates to true at 2025-01-11 00:01:00 and to
false at 2025-01-10 23:59:30. -/
theorem c4_calendar_gate_witness :
    should_send_alert (some "Alert sent (2025-01-10 23:59:00)\nmsg\n") "daily"
      ⟨2025, 1, 11, 0, 1, 0⟩ = true
    ∧ should_send_alert (some "Alert sent (2025-01-10 23:59:00)\nmsg\n") "daily"
      ⟨2025, 1, 10, 23, 59, 30⟩ = false := by
  constructor
  · exact (c4_calendar_gate "Alert sent (2025-01-10 23:59:00)\nmsg\n"
      ⟨2025, 1, 10, 23, 59, 0⟩ ⟨2025, 1, 11, 0, 1, 0⟩ (by decide) (by decide)).1.mpr
      (by decide)
  · have h := (c4_calendar_gate "Alert sent (2025-01-10 23:59:00)\nmsg\n"
      ⟨2025, 1, 10, 23, 59, 0⟩ ⟨2025, 1, 10, 23, 59, 30⟩ (by decide) (by decide)).1
    cases hg : should_send_alert (some "Alert sent (2025-01-10 23:59:00)\nmsg\n") "daily"
      ⟨2025, 1, 10, 23, 59, 30⟩ with
    | false => rfl
    | true => exact absurd (h.mp hg) (by decide)

/-- C6: for a gate-approved alert the record file is written exactly
when the external notifier reports success (`credsSet && sendSucceeds`);
the log-file append happens on every call, gate-approved or not; a
gate-rejected alert performs no notification attempt but still surfaces
the message; and a skipped or failed notification surfaces its own
diagnostic while leaving the record unwritten. -/
theorem c6_record_written_iff_notify_success (message ticker frequency : String)
    (record : Option String) (now : PyDateTime) (credsSet sendSucceeds : Bool) :
    ((∃ c, Effect.writeRecord ticker c ∈
        log_alert message ticker frequency record now credsSet sendSucceeds) ↔
      should_send_alert record frequency now = true ∧ credsSet = true ∧ sendSucceeds = true)
    ∧ Effect.logFileAppend (log_entry_message now message) ∈
        log_alert message ticker frequency record now credsSet sendSucceeds
    ∧ (should_send_alert record frequency now = false →
        (∀ m b, Effect.notifyAttempt m b ∉
          log_alert message ticker frequency record now credsSet sendSucceeds)
        ∧ Effect.consolePrint ("Details: " ++ message) ∈
          log_alert message ticker frequency record now credsSet sendSucceeds)
    ∧ (should_send_alert record frequency now = true → credsSet = true →
        sendSucceeds = false →
        Effect.consolePrint "Could not send Pushover notification." ∈
          log_alert message ticker frequency record now credsSet sendSucceeds)
    ∧ (should_send_alert record frequency now = true → credsSet = false →
        Effect.consolePrint "Pushover credentials are not set. Skipping notification." ∈
          log_alert message ticker frequency record now credsSet sendSucceeds) := by
  cases hss : should_send_alert record frequency now <;>
    cases credsSet <;> cases sendSucceeds <;>
      simp [log_alert, send_pushover_notification, hss]

/-- C6 (witness). -/
theorem c6_record_written_iff_notify_success_witness :
    (∃ c, Effect.writeRecord "TICK" c ∈
      log_alert "msg" "TICK" "daily" none ⟨2025, 1, 15, 12, 0, 0⟩ true true)
    ∧ (∀ m b, Effect.notifyAttempt m b ∉
        log_alert "msg" "TICK" "once" (some "Alert sent (x)\n") ⟨2025, 1, 15, 12, 0, 0⟩ true true)
    ∧ Effect.consolePrint "Could not send Pushover notification." ∈
        log_alert "msg" "TICK" "daily" none ⟨2025, 1, 15, 12, 0, 0⟩ true false := by
  refine ⟨?_, ?_, ?_⟩
  · exact (c6_record_written_iff_notify_success "msg" "TICK" "daily" none
      ⟨2025, 1, 15, 12, 0, 0⟩ true true).1.mpr ⟨rfl, rfl, rfl⟩
  · exact (c6_record_written_iff_notify_success "msg" "TICK" "once"
      (some "Alert sent (x)\n") ⟨2025, 1, 15, 12, 0, 0⟩ true true).2.2.1 (by decide) |>.1
  · exact (c6_record_written_iff_notify_success "msg" "TICK" "daily" none
      ⟨2025, 1, 15, 12, 0, 0⟩ true false).2.2.2.1 rfl rfl rfl

/-- C7 (counterexample): on a gate-approved alert with a successful
notification, the dispatcher appends to the log file only after the
notification attempt, so the claimed order log, then notify, then
persist does not hold of the log sink. -/
theorem c7_order_counterexample :
    log_sink_before_notify
      (log_alert "msg" "TICK" "daily" none ⟨2025, 1, 15, 12, 0, 0⟩ true true) = false := by
  rfl

/-- C7 (amended): for a gate-approved alert the dispatcher effects are
exactly: the console emission of the timestamped message first, then the
notifier effects (the attempt and its own diagnostic), then the log-file
append, and last — only when the notifier reported success — the record
write; so persistence never precedes a confirmed notification success. -/
theorem c7_order_amended (message ticker frequency : String) (record : Option String)
    (now : PyDateTime) (credsSet sendSucceeds : Bool)
    (hgate : should_send_alert record frequency now = true) :
    log_alert message ticker frequency record now credsSet sendSucceeds =
      [Effect.consolePrint (log_entry_message now message)]
        ++ (send_pushover_notification credsSet sendSucceeds message).2
        ++ [Effect.logFileAppend (log_entry_message now message)]
        ++ (if credsSet && sendSucceeds then
              [Effect.writeRecord ticker (create_alert_file_content now message)]
            else [])
    ∧ (send_pushover_notification credsSet sendSucceeds message).1
        = (credsSet && sendSucceeds) := by
  cases credsSet <;> cases sendSucceeds <;>
    simp [log_alert, send_pushover_notification, hgate]

/-- C7 (witness for the amended claim). -/
theorem c7_order_amended_witness :
    log_alert "msg" "TICK" "daily" none ⟨2025, 1, 15, 12, 0, 0⟩ true true =
      [Effect.consolePrint (log_entry_message ⟨2025, 1, 15, 12, 0, 0⟩ "msg")]
        ++ (send_pushover_notification true true "msg").2
        ++ [Effect.logFileAppend (log_entry_message ⟨2025, 1, 15, 12, 0, 0⟩ "msg")]
        ++ [Effect.writeRecord "TICK" (create_alert_file_content ⟨2025, 1, 15, 12, 0, 0⟩ "msg")] := by
  have h := (c7_order_amended "msg" "TICK" "daily" none ⟨2025, 1, 15, 12, 0, 0⟩
    true true rfl).1
  simpa using h

/-- Helper: direction validation always lands in the enum. -/
theorem normalizeDirection_mem (raw : String) :
    normalizeDirection raw = "gain" ∨ normalizeDirection raw = "drop"
    ∨ normalizeDirection raw = "both" := by
  unfold normalizeDirection
  split
  · next h =>
    rcases Bool.or_eq_true_iff.mp h with h1 | h2
    · rcases Bool.or_eq_true_iff.mp h1 with h3 | h4
      · exact Or.inl (beq_iff_eq.mp h3)
      · exact Or.inr (Or.inl (beq_iff_eq.mp h4))
    · exact Or.inr (Or.inr (beq_iff_eq.mp h2))
  · exact Or.inr (Or.inr rfl)

/-- Helper: frequency validation always lands in the enum. -/
theorem normalizeFrequency_mem (raw : String) :
    normalizeFrequency raw = "once" ∨ normalizeFrequency raw = "daily"
    ∨ normalizeFrequency raw = "weekly" ∨ normalizeFrequency raw = "monthly" := by
  unfold normalizeFrequency
  split
  · next h =>
    rcases Bool.or_eq_true_iff.mp h with h1 | h2
    · rcases Bool.or_eq_true_iff.mp h1 with h3 | h4
      · rcases Bool.or_eq_true_iff.mp h3 with h5 | h6
        · exact Or.inl (beq_iff_eq.mp h5)
        · exact Or.inr (Or.inl (beq_iff_eq.mp h6))
      · exact Or.inr (Or.inr (Or.inl (beq_iff_eq.mp h4)))
    · exact Or.inr (Or.inr (Or.inr (beq_iff_eq.mp h2)))
  · exact Or.inr (Or.inl rfl)

/-- Helper: a successfully parsed row carries exactly `rowConfig row`. -/
theorem parseRowEntry_config (row : List String) (t : String) (cfg : WatchConfig)
    (h : parseRowEntry row = some (t, cfg)) : cfg = rowConfig row := by
  unfold parseRowEntry at h
  split at h
  · exact absurd h (by simp)
  · split at h
    · exact absurd h (by simp)
    · injection h with h
      exact (congrArg Prod.snd h).symm

/-- Helper: membership after a dict assignment. -/
theorem upsert_mem (wl : List (String × WatchConfig)) (t : String) (cfg : WatchConfig)
    (e : String × WatchConfig) (he : e ∈ upsert wl t cfg) : e ∈ wl ∨ e = (t, cfg) := by
  unfold upsert at he
  split at he
  · rcases List.mem_map.mp he with ⟨a, ha, hfa⟩
    by_cases hat : (a.1 == t) = true
    · right; rw [if_pos hat] at hfa; exact hfa.symm
    · left; rw [if_neg hat] at hfa; exact hfa ▸ ha
  · rcases List.mem_append.mp he with h | h
    · exact Or.inl h
    · right; simpa using h

/-- Helper: any property delivered by `parseRowEntry` is invariant
through the row loop. -/
theorem processRows_mem (P : String × WatchConfig → Prop)
    (hP : ∀ row t cfg, parseRowEntry row = some (t, cfg) → P (t, cfg)) :
    ∀ (rows : List (List String)) (wl : List (String × WatchConfig)),
      (∀ e, e ∈ wl → P e) → ∀ e, e ∈ processRows rows wl → P e := by
  intro rows
  induction rows with
  | nil => intro wl hwl e he; exact hwl e he
  | cons r rs ih =>
    intro wl hwl e he
    have hstep : ∀ e, e ∈ (match parseRowEntry r with
        | none => wl
        | some tc => upsert wl tc.1 tc.2) → P e := by
      cases hr : parseRowEntry r with
      | none => exact hwl
      | some tc =>
        intro x hx
        rcases upsert_mem wl tc.1 tc.2 x hx with h | h
        · exact hwl x h
        · exact h ▸ hP r tc.1 tc.2 hr
    have hrw : processRows (r :: rs) wl = processRows rs
        (match parseRowEntry r with
         | none => wl
         | some tc => upsert wl tc.1 tc.2) := by
      simp only [processRows, List.foldl]
    rw [hrw] at he
    exact ih _ hstep e he

/-- C8: every entry of the parsed watchlist has a direction in
(gain, drop, both) and an alert frequency in (once, daily, weekly,
monthly); a numeric column that fails `float` conversion degrades to
that column default (threshold 0.5, price targets `None`); a row whose
ticker strips to empty is skipped; and a missing watchlist source yields
the empty mapping. -/
theorem c8_watchlist_defensive_parse :
    (∀ (source : Option (List (List String))) (e : String × WatchConfig),
        e ∈ parse_watchlist source →
          (e.2.direction = "gain" ∨ e.2.direction = "drop" ∨ e.2.direction = "both")
          ∧ (e.2.alert_frequency = "once" ∨ e.2.alert_frequency = "daily"
              ∨ e.2.alert_frequency = "weekly" ∨ e.2.alert_frequency = "monthly"))
    ∧ (∀ (row : List String) (t : String) (cfg : WatchConfig),
        parseRowEntry row = some (t, cfg) →
          (pyFloat (pyStrip (row.getD 1 "")) = none → cfg.threshold = DEFAULT_THRESHOLD)
          ∧ (pyFloat (pyStrip (row.getD 3 "")) = none → cfg.price_below = none)
          ∧ (pyFloat (pyStrip (row.getD 4 "")) = none → cfg.price_above = none))
    ∧ (∀ row : List String, pyStrip (row.headD "") = "" → parseRowEntry row = none)
    ∧ parse_watchlist none = [] := by
  refine ⟨?_, ?_, ?_, rfl⟩
  · intro source e he
    cases source with
    | none => exact absurd he (by simp [parse_watchlist])
    | some rows =>
      refine processRows_mem (fun e =>
        (e.2.direction = "gain" ∨ e.2.direction = "drop" ∨ e.2.direction = "both")
        ∧ (e.2.alert_frequency = "once" ∨ e.2.alert_frequency = "daily"
            ∨ e.2.alert_frequency = "weekly" ∨ e.2.alert_frequency = "monthly"))
        ?_ (rowsToProcess rows) [] (by simp) e he
      intro row t cfg hrow
      rw [parseRowEntry_config row t cfg hrow]
      exact ⟨normalizeDirection_mem _, normalizeFrequency_mem _⟩
  · intro row t cfg hrow
    rw [parseRowEntry_config row t cfg hrow]
    refine ⟨?_, ?_, ?_⟩
    · intro hnone
      show rowThreshold row = DEFAULT_THRESHOLD
      unfold rowThreshold
      split
      · rw [hnone]
      · rfl
    · intro hnone
      show rowPrice row 3 = none
      unfold rowPrice
      split
      · exact hnone
      · rfl
    · intro hnone
      show rowPrice row 4 = none
      unfold rowPrice
      split
      · exact hnone
      · rfl
  · intro row h
    unfold parseRowEntry
    split
    · rfl
    · rw [if_pos (beq_iff_eq.mpr h)]

/-- C8 (witness): a row with an unparsable threshold, an invalid
direction, and an invalid frequency degrades to the defaults; a row
with a blank ticker is skipped; a missing source parses to the empty
mapping. -/
theorem c8_watchlist_defensive_parse_witness :
    (("AAPL", rowConfig ["AAPL", "abc", "sideways", "", "", "hourly"]).2.direction = "gain"
      ∨ ("AAPL", rowConfig ["AAPL", "abc", "sideways", "", "", "hourly"]).2.direction = "drop"
      ∨ ("AAPL", rowConfig ["AAPL", "abc", "sideways", "", "", "hourly"]).2.direction = "both")
    ∧ (rowConfig ["AAPL", "abc", "sideways", "", "", "hourly"]).threshold = DEFAULT_THRESHOLD
    ∧ parseRowEntry ["  ", "1.0"] = none := by
  refine ⟨?_, ?_, ?_⟩
  · exact ((c8_watchlist_defensive_parse.1
      (some [["AAPL", "abc", "sideways", "", "", "hourly"]])
      ("AAPL", rowConfig ["AAPL", "abc", "sideways", "", "", "hourly"]) (by decide))).1
  · exact ((c8_watchlist_defensive_parse.2.1 ["AAPL", "abc", "sideways", "", "", "hourly"]
      "AAPL" (rowConfig ["AAPL", "abc", "sideways", "", "", "hourly"]) (by decide)).1 (by decide))
  · exact c8_watchlist_defensive_parse.2.2.1 ["  ", "1.0"] (by decide)

/-- C9: writing the current New York time of day as seconds
`hour * 3600 + minute * 60 + second`, the session classifier returns
exactly one of the four phase strings, with half-open boundaries at
04:00, 09:30, 16:00 and 20:00; and a closed session makes the polling
cycle perform no evaluation at all. -/
theorem c9_market_session_classification (hour minute second : Nat)
    (hm : minute < 60) (hs : second < 60) :
    (get_market_session (hour, minute, second) = "pre-market" ↔
      (4 * 3600 ≤ hour * 3600 + minute * 60 + second
        ∧ hour * 3600 + minute * 60 + second < 9 * 3600 + 30 * 60))
    ∧ (get_market_session (hour, minute, second) = "regular" ↔
      (9 * 3600 + 30 * 60 ≤ hour * 3600 + minute * 60 + second
        ∧ hour * 3600 + minute * 60 + second < 16 * 3600))
    ∧ (get_market_session (hour, minute, second) = "post-market" ↔
      (16 * 3600 ≤ hour * 3600 + minute * 60 + second
        ∧ hour * 3600 + minute * 60 + second < 20 * 3600))
    ∧ (get_market_session (hour, minute, second) = "closed" ↔
      (hour * 3600 + minute * 60 + second < 4 * 3600
        ∨ 20 * 3600 ≤ hour * 3600 + minute * 60 + second))
    ∧ (∀ inputs, check_stock_price_change inputs "closed" = none) := by
  have hclosed : ∀ inputs, check_stock_price_change inputs "closed" = none := by
    intro inputs
    unfold check_stock_price_change
    split
    · rfl
    · rfl
  have k1 : (pytime_le (4, 0, 0) (hour, minute, second)
      && pytime_lt (hour, minute, second) (9, 30, 0)) = true ↔
      (4 * 3600 ≤ hour * 3600 + minute * 60 + second
        ∧ hour * 3600 + minute * 60 + second < 9 * 3600 + 30 * 60) := by
    simp only [pytime_le, pytime_lt, Bool.and_eq_true, Bool.or_eq_true,
      decide_eq_true_eq, beq_iff_eq]
    omega
  have k2 : (pytime_le (9, 30, 0) (hour, minute, second)
      && pytime_lt (hour, minute, second) (16, 0, 0)) = true ↔
      (9 * 3600 + 30 * 60 ≤ hour * 3600 + minute * 60 + second
        ∧ hour * 3600 + minute * 60 + second < 16 * 3600) := by
    simp only [pytime_le, pytime_lt, Bool.and_eq_true, Bool.or_eq_true,
      decide_eq_true_eq, beq_iff_eq]
    omega
  have k3 : (pytime_le (16, 0, 0) (hour, minute, second)
      && pytime_lt (hour, minute, second) (20, 0, 0)) = true ↔
      (16 * 3600 ≤ hour * 3600 + minute * 60 + second
        ∧ hour * 3600 + minute * 60 + second < 20 * 3600) := by
    simp only [pytime_le, pytime_lt, Bool.and_eq_true, Bool.or_eq_true,
      decide_eq_true_eq, beq_iff_eq]
    omega
  by_cases c1 : (pytime_le (4, 0, 0) (hour, minute, second)
      && pytime_lt (hour, minute, second) (9, 30, 0)) = true
  · have hb := k1.mp c1
    simp only [get_market_session, c1, if_true]
    exact ⟨iff_of_true (by simp) hb, iff_of_false (by decide) (by omega),
      iff_of_false (by decide) (by omega), iff_of_false (by decide) (by omega),
      hclosed⟩
  · have c1f : (pytime_le (4, 0, 0) (hour, minute, second)
        && pytime_lt (hour, minute, second) (9, 30, 0)) = false :=
      Bool.eq_false_iff.mpr c1
    have hb1 : ¬ (4 * 3600 ≤ hour * 3600 + minute * 60 + second
        ∧ hour * 3600 + minute * 60 + second < 9 * 3600 + 30 * 60) :=
      fun h => c1 (k1.mpr h)
    by_cases c2 : (pytime_le (9, 30, 0) (hour, minute, second)
        && pytime_lt (hour, minute, second) (16, 0, 0)) = true
    · have hb := k2.mp c2
      simp only [get_market_session, c1f, c2, if_true, if_false, Bool.false_eq_true]
      exact ⟨iff_of_false (by decide) hb1, iff_of_true (by simp) hb,
        iff_of_false (by decide) (by omega), iff_of_false (by decide) (by omega),
        hclosed⟩
    · have c2f : (pytime_le (9, 30, 0) (hour, minute, second)
          && pytime_lt (hour, minute, second) (16, 0, 0)) = false :=
        Bool.eq_false_iff.mpr c2
      have hb2 : ¬ (9 * 3600 + 30 * 60 ≤ hour * 3600 + minute * 60 + second
          ∧ hour * 3600 + minute * 60 + second < 16 * 3600) :=
        fun h => c2 (k2.mpr h)
      by_cases c3 : (pytime_le (16, 0, 0) (hour, minute, second)
          && pytime_lt (hour, minute, second) (20, 0, 0)) = true
      · have hb := k3.mp c3
        simp only [get_market_session, c1f, c2f, c3, if_true, if_false,
          Bool.false_eq_true]
        exact ⟨iff_of_false (by decide) hb1, iff_of_false (by decide) hb2,
          iff_of_true (by simp) hb, iff_of_false (by decide) (by omega), hclosed⟩
      · have c3f : (pytime_le (16, 0, 0) (hour, minute, second)
            && pytime_lt (hour, minute, second) (20, 0, 0)) = false :=
          Bool.eq_false_iff.mpr c3
        have hb3 : ¬ (16 * 3600 ≤ hour * 3600 + minute * 60 + second
            ∧ hour * 3600 + minute * 60 + second < 20 * 3600) :=
          fun h => c3 (k3.mpr h)
        simp only [get_market_session, c1f, c2f, c3f, if_false, Bool.false_eq_true]
        exact ⟨iff_of_false (by decide) hb1, iff_of_false (by decide) hb2,
          iff_of_false (by decide) hb3, iff_of_true (by simp) (by omega), hclosed⟩

/-- C9 (witness): the boundary instants land on the closed side of each
half-open interval. -/
theorem c9_market_session_classification_witness :
    get_market_session (9, 30, 0) = "regular"
    ∧ get_market_session (16, 0, 0) = "post-market"
    ∧ get_market_session (20, 0, 0) = "closed" := by
  refine ⟨?_, ?_, ?_⟩
  · exact (c9_market_session_classification 9 30 0 (by decide) (by decide)).2.1.mpr
      (by omega)
  · exact (c9_market_session_classification 16 0 0 (by decide) (by decide)).2.2.1.mpr
      (by omega)
  · exact (c9_market_session_classification 20 0 0 (by decide)
      (by decide)).2.2.2.1.mpr (by omega)

/-- Helper: a found header index points at a header row, and no earlier
row is a header row. -/
theorem findHeaderIdx_some_spec (rows : List (List String)) (i : Nat)
    (h : findHeaderIdx rows = some i) :
    i < rows.length ∧ isHeaderRow (rows.getD i []) = true
    ∧ (∀ j, j < i → isHeaderRow (rows.getD j []) = false) := by
  induction rows generalizing i with
  | nil => exact absurd h (by simp [findHeaderIdx])
  | cons r rs ih =>
    by_cases hr : isHeaderRow r
    · rw [findHeaderIdx, if_pos hr] at h
      injection h with h
      subst h
      exact ⟨by simp, by simpa using hr, fun j hj => absurd hj (by omega)⟩
    · rw [findHeaderIdx, if_neg hr] at h
      cases hk : findHeaderIdx rs with
      | none => rw [hk] at h; exact absurd h (by simp)
      | some k =>
        rw [hk] at h
        simp only [Option.map_some'] at h
        injection h with h
        subst h
        obtain ⟨hlen, hhead, hbefore⟩ := ih k hk
        refine ⟨by simpa using hlen, by simpa using hhead, ?_⟩
        intro j hj
        cases j with
        | zero => simpa using Bool.eq_false_iff.mpr hr
        | succ j => simpa using hbefore j (by omega)

/-- Helper: when no header index is found, no row is a header row. -/
theorem findHeaderIdx_none_spec (rows : List (List String))
    (h : findHeaderIdx rows = none) :
    ∀ r, r ∈ rows → isHeaderRow r = false := by
  induction rows with
  | nil => intro r hr; exact absurd hr (by simp)
  | cons a rs ih =>
    by_cases ha : isHeaderRow a
    · rw [findHeaderIdx, if_pos ha] at h; exact absurd h (by simp)
    · rw [findHeaderIdx, if_neg ha] at h
      intro r hr
      rcases List.mem_cons.mp hr with hcase | hcase
      · exact hcase ▸ Bool.eq_false_iff.mpr ha
      · cases hk : findHeaderIdx rs with
        | none => exact ih hk r hcase
        | some k => rw [hk] at h; exact absurd h (by simp)

/-- C10: the watchlist parser scans for the first row whose first field
strips to exactly `TICKER`; when one exists at index `i`, that row and
every row before it are excluded and only the rows after it are fed to
the row loop; when none exists, every row is fed to the row loop. -/
theorem c10_header_scan (rows : List (List String)) :
    (∀ i, findHeaderIdx rows = some i →
        i < rows.length ∧ isHeaderRow (rows.getD i []) = true
        ∧ (∀ j, j < i → isHeaderRow (rows.getD j []) = false)
        ∧ rowsToProcess rows = rows.drop (i + 1))
    ∧ (findHeaderIdx rows = none →
        (∀ r, r ∈ rows → isHeaderRow r = false) ∧ rowsToProcess rows = rows)
    ∧ parse_watchlist (some rows) = processRows (rowsToProcess rows) [] := by
  refine ⟨?_, ?_, rfl⟩
  · intro i h
    obtain ⟨hlen, hhead, hbefore⟩ := findHeaderIdx_some_spec rows i h
    exact ⟨hlen, hhead, hbefore, by rw [rowsToProcess, h]⟩
  · intro h
    exact ⟨findHeaderIdx_none_spec rows h, by rw [rowsToProcess, h]⟩

/-- C10 (witness): in a concrete file whose second row is the header,
the first two rows are dropped and only the rows after the header are
processed. -/
theorem c10_header_scan_witness :
    isHeaderRow ([["junk row"], ["TICKER", "THRESHOLD"], ["AAPL", "1.0"]].getD 1 [])
      = true
    ∧ rowsToProcess [["junk row"], ["TICKER", "THRESHOLD"], ["AAPL", "1.0"]]
      = [["AAPL", "1.0"]] := by
  have h := (c10_header_scan [["junk row"], ["TICKER", "THRESHOLD"], ["AAPL", "1.0"]]).1
    1 (by decide)
  exact ⟨h.2.1, h.2.2.2⟩
